import Mathlib

set_option autoImplicit false

deriving instance DecidableEq for Except

/-!
Shallow embedding of the resilience layer of the deepiri-core-api repository:
the per-origin/per-service HTTP client (httpClient / proxyClient), the
breaker-guarded cache service, and the Redis-backed rate-limiting middleware.
External libraries (axios, p-retry, opossum, rate-limiter-flexible, the WHATWG
URL parser, JSON) are modelled explicitly where the embedded code depends on
their behaviour.
-/

namespace DeepiriCore

/-! ### HTTP responses and the scripted transport

The repository mocks `axios.request` in its tests with a fixed sequence of
resolved responses; we model the transport the same way, as a script of
outcomes consumed one per invocation.  `validateStatus: () => true` in the
source means axios resolves every HTTP status, so an HTTP response is always a
`resp` entry; `netErr` models a transport-level rejection. -/

/-- Response body, abstracted: the tests use an empty object and the object
with the single field ok set to true. -/
inductive Body where
  | empty
  | okTrue
  | text (s : String)
  deriving DecidableEq, Repr

structure AxiosResponse where
  status : Nat
  data : Body
  deriving DecidableEq, Repr

inductive TransportResult where
  | resp (r : AxiosResponse)
  | netErr (msg : String)
  deriving DecidableEq, Repr

/-- Errors surfaced by the embedded httpClient. `http5xx` is the
`new Error(...)` thrown in `attempt` when `resp.status >= 500` (it carries the
response); `circuitOpen` is the wrapped EOPENBREAKER error; `requiresUrl` is
the guard error of `httpRequest`. -/
inductive HttpErr where
  | network (msg : String)
  | http5xx (r : AxiosResponse)
  | circuitOpen (target : String)
  | requiresUrl
  deriving DecidableEq, Repr

/-- One attempt of the inner `attempt` closure: run the transport once;
a 5xx response is thrown as an error, anything below 500 is returned as-is. -/
def attemptOnce (tr : TransportResult) : Except HttpErr AxiosResponse :=
  match tr with
  | .netErr m => .error (.network m)
  | .resp r => if 500 ≤ r.status then .error (.http5xx r) else .ok r

def isErr (e : Except HttpErr AxiosResponse) : Bool :=
  match e with
  | .error _ => true
  | .ok _ => false

/-- Model of `pRetry(attempt, { retries, ... })`: run the attempt, and on a
thrown error retry while additional attempts remain (`retries` counts the
attempts after the first).  Backoff delays affect timing only, not results.
Returns the final result, the number of transport invocations made, and the
unconsumed remainder of the script. -/
def runPRetry : Nat → List TransportResult → Except HttpErr AxiosResponse × Nat × List TransportResult
  | _, [] => (.error (.network "transport script exhausted"), 0, [])
  | retries, tr :: rest =>
    match attemptOnce tr with
    | .ok r => (.ok r, 1, rest)
    | .error e =>
      match retries with
      | 0 => (.error e, 1, rest)
      | n + 1 =>
        let out := runPRetry n rest
        (out.1, out.2.1 + 1, out.2.2)

/-! ### Circuit breaker (model of opossum)

Only the pieces of opossum the embedded code observes are modelled: the
`opened` / `halfOpen` flags read by `getBreakerStates` and the open-circuit
fast-fail of `fire`.  The rolling statistics window is simplified to total
fire/failure counts; the time-based open→halfOpen transition is not modelled
(no claim depends on elapsed time). -/

structure Breaker where
  opened : Bool
  halfOpen : Bool
  fires : Nat
  failures : Nat
  errorThresholdPercentage : Nat
  deriving DecidableEq, Repr

def newBreaker (threshold : Nat) : Breaker :=
  { opened := false, halfOpen := false, fires := 0, failures := 0,
    errorThresholdPercentage := threshold }

def recordSuccess (b : Breaker) : Breaker :=
  { b with fires := b.fires + 1, halfOpen := false }

def recordFailure (b : Breaker) : Breaker :=
  let fires := b.fires + 1
  let failures := b.failures + 1
  { b with
    fires := fires
    failures := failures
    opened := b.opened || decide (b.errorThresholdPercentage * fires ≤ failures * 100) }

inductive FireErr where
  | openBreaker
  | action (e : HttpErr)
  deriving DecidableEq, Repr

/-- `breaker.fire(config)`: reject immediately when open (EOPENBREAKER),
otherwise run the action (the pRetry pipeline over the transport script) and
record the outcome in the breaker statistics. -/
def fire (b : Breaker) (retries : Nat) (script : List TransportResult) :
    Except FireErr AxiosResponse × Breaker × Nat :=
  if b.opened then (.error .openBreaker, b, 0)
  else
    match runPRetry retries script with
    | (.ok r, n, _) => (.ok r, recordSuccess b, n)
    | (.error e, n, _) => (.error (.action e), recordFailure b, n)

/-! ### Association-list registries (model of the JS `Map`s) -/

def lookupA {α : Type} : List (String × α) → String → Option α
  | [], _ => none
  | (k, v) :: rest, key => if k = key then some v else lookupA rest key

def insertA {α : Type} : List (String × α) → String → α → List (String × α)
  | [], key, v => [(key, v)]
  | (k, w) :: rest, key, v =>
    if k = key then (key, v) :: rest else (k, w) :: insertA rest key v

/-! ### Character-list string scanning

Plain structural recursion over `List Char`, standing in for the string
searching done by the JS runtime (`String.prototype.startsWith`,
`String.prototype.includes`, the URL parser).  Written over char lists so that
every use reduces in the kernel. -/

def listIsPre : List Char → List Char → Bool
  | [], _ => true
  | _ :: _, [] => false
  | a :: as, b :: bs => a == b && listIsPre as bs

/-- Split a char list at the first occurrence of `sep`, returning the parts
before and after it. -/
def splitFirst (sep : List Char) : List Char → Option (List Char × List Char)
  | [] => none
  | c :: cs =>
    if listIsPre sep (c :: cs) then some ([], (c :: cs).drop sep.length)
    else
      match splitFirst sep cs with
      | some p => some (c :: p.1, p.2)
      | none => none

def hasSub (pat : List Char) : List Char → Bool
  | [] => listIsPre pat []
  | c :: cs => listIsPre pat (c :: cs) || hasSub pat cs

/-- `s.includes(pat)` on JS strings. -/
def containsSub (s pat : String) : Bool := hasSub pat.toList s.toList

/-- `s.startsWith(pat)` on JS strings. -/
def strStartsWith (s pat : String) : Bool := listIsPre pat.toList s.toList

/-! ### URL origins

Modelled behaviour of the WHATWG URL parser used by `new URL(url).origin`: an
absolute URL of shape scheme://host[/path...] parses to the origin
scheme://host; a string without a nonempty alphabetic scheme followed by the
:// separator and a nonempty host fails to parse (TypeError), which
`getOriginFromUrl` catches and turns into the empty string. -/
def parseOrigin (url : String) : Option String :=
  match splitFirst "://".toList url.toList with
  | none => none
  | some p =>
    let scheme := p.1
    let host := p.2.takeWhile (fun c => c ≠ '/')
    if scheme ≠ [] ∧ scheme.all Char.isAlpha ∧ host ≠ [] then
      some (String.mk (scheme ++ "://".toList ++ host))
    else none

def getOriginFromUrl (url : String) : String :=
  match parseOrigin url with
  | some o => o
  | none => ""

/-! ### The HTTP client state

`httpClient` keeps one module-level `Map` of per-origin breakers
(`hostBreakers`), and the singleton `proxyClient` keeps a private `Map` of
per-service breakers.  Both are represented here as an explicit state threaded
through the operations. -/

structure ClientState where
  hostBreakers : List (String × Breaker)
  serviceBreakers : List (String × Breaker)
  deriving DecidableEq, Repr

def emptyClientState : ClientState :=
  { hostBreakers := [], serviceBreakers := [] }

/-- Default number of additional retry attempts
(`HTTP_CLIENT_MAX_RETRIES`, default 2). -/
def DEFAULT_RETRIES : Nat := 2

/-- Default breaker error threshold percentage
(`HTTP_BREAKER_ERROR_THRESHOLD_PCT`, default 50). -/
def DEFAULT_THRESHOLD_PCT : Nat := 50

/-- `getBreakerForHost`: memoized get-or-create of the per-origin breaker. -/
def getBreakerForHost (st : ClientState) (origin : String) : Breaker × ClientState :=
  match lookupA st.hostBreakers origin with
  | some b => (b, st)
  | none =>
    let b := newBreaker DEFAULT_THRESHOLD_PCT
    (b, { st with hostBreakers := insertA st.hostBreakers origin b })

/-- `ProxyClient.getBreaker`: memoized get-or-create of the per-service
breaker (same breaker options as the per-origin client). -/
def getBreakerForService (st : ClientState) (service : String) : Breaker × ClientState :=
  match lookupA st.serviceBreakers service with
  | some b => (b, st)
  | none =>
    let b := newBreaker DEFAULT_THRESHOLD_PCT
    (b, { st with serviceBreakers := insertA st.serviceBreakers service b })

structure HttpRequestOptions where
  serviceName : Option String
  url : Option String
  method : String
  deriving DecidableEq, Repr

/-- JS truthiness of an optional string field: undefined and the empty string
are both falsy. -/
def strFalsy : Option String → Bool
  | none => true
  | some s => s == ""

/-- `ProxyClient.request`: fire the per-service breaker on the retrying
action, write the updated breaker back, and rewrap EOPENBREAKER as the
isCircuitOpen error carrying the service name. -/
def proxyRequest (st : ClientState) (service : String) (script : List TransportResult) :
    Except HttpErr AxiosResponse × ClientState × Nat :=
  let got := getBreakerForService st service
  let fired := fire got.1 DEFAULT_RETRIES script
  let st2 := { got.2 with serviceBreakers := insertA got.2.serviceBreakers service fired.2.1 }
  match fired.1 with
  | .ok r => (.ok r, st2, fired.2.2)
  | .error .openBreaker => (.error (.circuitOpen service), st2, fired.2.2)
  | .error (.action e) => (.error e, st2, fired.2.2)

/-- `httpRequest`: delegate to the proxy client when a serviceName is given;
require a url otherwise; fall back to a direct retrying call when the url is
not absolute; otherwise fire the per-origin breaker on the retrying action.
The third component counts transport invocations. -/
def httpRequest (opts : HttpRequestOptions) (st : ClientState) (script : List TransportResult) :
    Except HttpErr AxiosResponse × ClientState × Nat :=
  if ¬ strFalsy opts.serviceName then
    proxyRequest st (opts.serviceName.getD "") script
  else if strFalsy opts.url then
    (.error .requiresUrl, st, 0)
  else
    let origin := getOriginFromUrl (opts.url.getD "")
    if origin = "" then
      let out := runPRetry DEFAULT_RETRIES script
      (out.1, st, out.2.1)
    else
      let got := getBreakerForHost st origin
      let fired := fire got.1 DEFAULT_RETRIES script
      let st2 := { got.2 with hostBreakers := insertA got.2.hostBreakers origin fired.2.1 }
      match fired.1 with
      | .ok r => (.ok r, st2, fired.2.2)
      | .error .openBreaker => (.error (.circuitOpen origin), st2, fired.2.2)
      | .error (.action e) => (.error e, st2, fired.2.2)

/-- `getBreakerStates`: snapshot of the per-origin breaker map only, labelling
each origin with open, halfOpen or closed from the breaker flags. -/
def breakerStateLabel (b : Breaker) : String :=
  if b.opened then "open" else if b.halfOpen then "halfOpen" else "closed"

def getBreakerStates (st : ClientState) : List (String × String) :=
  st.hostBreakers.map (fun p => (p.1, breakerStateLabel p.2))

/-! ### Cache service (CacheService with circuit breaker)

The breaker-enabled CacheService guards each operation with: a connection check
(degrade to miss / no-op when disconnected), an explicit breaker-open check
(fail-fast as miss / skip), the breaker-fired backend operation, and an
enclosing try/catch that swallows every error (get returns null, set and del
return normally).  The Redis backend round-trip itself is modelled as an
injected outcome, like the transport script of the HTTP client. -/

structure CacheState where
  isConnected : Bool
  hasClient : Bool
  breaker : Option Breaker
  deriving DecidableEq, Repr

/-- Injected outcome of one backend read: the stored raw string (or null), or
a rejection. -/
inductive ReadCall where
  | value (raw : Option String)
  | backendErr (msg : String)
  deriving DecidableEq, Repr

/-- Modelled `JSON.parse`: raw payloads starting with an exclamation mark
stand in for malformed JSON (a thrown SyntaxError); everything else parses to
itself. -/
def jsonParse (s : String) : Except String String :=
  if strStartsWith s "!" then .error "SyntaxError" else .ok s

def breakerIsOpen : Option Breaker → Bool
  | none => false
  | some b => b.opened

/-- `CacheService.get`: returns the value (or none), the updated state, and
whether the backend was contacted. -/
def cacheGet (st : CacheState) (call : ReadCall) : Option String × CacheState × Bool :=
  let inner : Except String (Option String) × CacheState × Bool :=
    if ¬ st.isConnected ∨ ¬ st.hasClient then (.ok none, st, false)
    else if breakerIsOpen st.breaker then (.ok none, st, false)
    else
      let exec : Except String (Option String) :=
        match call with
        | .backendErr m => .error m
        | .value none => .ok none
        | .value (some raw) =>
          match jsonParse raw with
          | .ok v => .ok (some v)
          | .error e => .error e
      match st.breaker with
      | some b =>
        match exec with
        | .ok v => (.ok v, { st with breaker := some (recordSuccess b) }, true)
        | .error e => (.error e, { st with breaker := some (recordFailure b) }, true)
      | none => (exec, st, true)
  match inner with
  | (.ok v, st2, c) => (v, st2, c)
  | (.error _, st2, c) => (none, st2, c)

/-- Injected outcome of one backend write (setEx or del). -/
inductive WriteCall where
  | done
  | backendErr (msg : String)
  deriving DecidableEq, Repr

/-- `CacheService.set` (the ttl and serialized value only flow to the
backend, which is injected): returns the updated state and whether the
backend was contacted; errors are swallowed. -/
def cacheSet (st : CacheState) (call : WriteCall) : CacheState × Bool :=
  if ¬ st.isConnected ∨ ¬ st.hasClient then (st, false)
  else if breakerIsOpen st.breaker then (st, false)
  else
    match st.breaker, call with
    | some b, .done => ({ st with breaker := some (recordSuccess b) }, true)
    | some b, .backendErr _ => ({ st with breaker := some (recordFailure b) }, true)
    | none, _ => (st, true)

/-- `CacheService.del`: identical guard structure to set. -/
def cacheDel (st : CacheState) (call : WriteCall) : CacheState × Bool :=
  if ¬ st.isConnected ∨ ¬ st.hasClient then (st, false)
  else if breakerIsOpen st.breaker then (st, false)
  else
    match st.breaker, call with
    | some b, .done => ({ st with breaker := some (recordSuccess b) }, true)
    | some b, .backendErr _ => ({ st with breaker := some (recordFailure b) }, true)
    | none, _ => (st, true)

/-! ### Rate limiter (rateBot middleware over rate-limiter-flexible)

The middleware consults two limiters: the Redis-backed main limiter
(100 points / 900 s) and the in-memory burst limiter (10 points / 1 s).  The
limiter store is modelled as a fixed-window counter per key
(increment-then-check, msBeforeNext = time to window reset), the documented
behaviour of rate-limiter-flexible that the middleware relies on. -/

structure WindowState where
  consumed : Nat
  resetAt : Nat
  deriving DecidableEq, Repr

inductive ConsumeOutcome where
  | allowed (w : WindowState)
  | limited (msBeforeNext : Nat) (w : WindowState)
  deriving DecidableEq, Repr

/-- One `limiter.consume(key)` on the window value stored for the key: a
fresh or expired key opens a new window of durationSec; the point is recorded
and the consume resolves while the consumed count stays within `points`,
and rejects otherwise with the milliseconds left until the window resets. -/
def consumePoint (points durationSec now : Nat) (w0 : Option WindowState) : ConsumeOutcome :=
  let fresh : WindowState := ⟨1, now + durationSec * 1000⟩
  match w0 with
  | none =>
    if 1 ≤ points then .allowed fresh else .limited (durationSec * 1000) fresh
  | some w =>
    if w.resetAt ≤ now then
      if 1 ≤ points then .allowed fresh else .limited (durationSec * 1000) fresh
    else
      let w1 : WindowState := ⟨w.consumed + 1, w.resetAt⟩
      if w1.consumed ≤ points then .allowed w1 else .limited (w.resetAt - now) w1

abbrev Store := List (String × WindowState)

def consumeKey (points durationSec now : Nat) (store : Store) (key : String) :
    ConsumeOutcome × Store :=
  match consumePoint points durationSec now (lookupA store key) with
  | .allowed w => (.allowed w, insertA store key w)
  | .limited ms w => (.limited ms w, insertA store key w)

/-- `k` consecutive consumes for the same key, reporting whether every one of
them was allowed. -/
def consumeAllAllowed (points durationSec now : Nat) (key : String) :
    Nat → Store → Bool × Store
  | 0, st => (true, st)
  | n + 1, st =>
    match consumeKey points durationSec now st key with
    | (.allowed _, st1) => consumeAllAllowed points durationSec now key n st1
    | (.limited _ _, st1) => (false, st1)

structure Req where
  path : String
  userAgent : String
  userId : Option String
  ip : Option String
  deriving DecidableEq, Repr

/-- `isBotUserAgent`: the lowercased User-Agent contains bot, crawler or
spider. -/
def isBotUserAgent (ua : String) : Bool :=
  let l := ua.toList.map Char.toLower
  hasSub "bot".toList l || hasSub "crawler".toList l || hasSub "spider".toList l

/-- JS `a || b` where a is an optional string: undefined and the empty string
are falsy. -/
def jsOr (a : Option String) (b : String) : String :=
  match a with
  | some s => if s = "" then b else s
  | none => b

/-- `getKey`: authenticated user id if present, else the caller address, else
the literal anonymous key. -/
def getKey (r : Req) : String := jsOr r.userId (jsOr r.ip "anonymous")

inductive RateDecision where
  | next
  | reject (status : Nat) (retryAfterHeader : Option Nat) (bodyRetryAfter : Option Nat)
      (message : String)
  deriving DecidableEq, Repr

structure RateLimitStores where
  main : Store
  burst : Store
  deriving DecidableEq, Repr

structure RateBotOut where
  decision : RateDecision
  stores : RateLimitStores
  consumeAttempts : Nat
  warnedRedisDown : Bool
  deriving DecidableEq, Repr

/-- `Math.ceil(err.msBeforeNext / 1000)` on natural milliseconds. -/
def ceilDiv1000 (ms : Nat) : Nat := (ms + 999) / 1000

/-- The rateBot middleware: skip outside production, skip auth paths, reject
bots with 403, fail open (warn + next) when the Redis connection failed, then
consume the main and burst limiters; a RateLimiterRes rejection is surfaced
as 429 with the ceiling of msBeforeNext in seconds both in the Retry-After
header and in the retryAfter body field.  `consumeAttempts` counts how many
limiter consumes were issued. -/
def rateBot (nodeEnv : String) (redisUp : Bool) (req : Req) (now : Nat)
    (s : RateLimitStores) : RateBotOut :=
  if nodeEnv ≠ "production" then ⟨.next, s, 0, false⟩
  else if strStartsWith req.path "/api/auth" then ⟨.next, s, 0, false⟩
  else if isBotUserAgent req.userAgent then
    ⟨.reject 403 none none "Bots are not allowed", s, 0, false⟩
  else if ¬ redisUp then ⟨.next, s, 0, true⟩
  else
    let key := getKey req
    match consumeKey 100 900 now s.main key with
    | (.limited ms _, main1) =>
      let r := ceilDiv1000 ms
      ⟨.reject 429 (some r) (some r) "Too many requests, please try again later.",
        ⟨main1, s.burst⟩, 1, false⟩
    | (.allowed _, main1) =>
      match consumeKey 10 1 now s.burst key with
      | (.limited ms _, burst1) =>
        let r := ceilDiv1000 ms
        ⟨.reject 429 (some r) (some r) "Too many requests, please try again later.",
          ⟨main1, burst1⟩, 2, false⟩
      | (.allowed _, burst1) => ⟨.next, ⟨main1, burst1⟩, 2, false⟩

/-- State of the client after one successful request addressed by service
name: the proxy registry holds a breaker for svc1. -/
def c9ServiceState : ClientState :=
  (httpRequest ⟨some "svc1", some "http://internal.local/x", "get"⟩ emptyClientState
    [.resp ⟨200, .empty⟩]).2.1

/-- A production request with an ordinary browser User-Agent on a non-exempt
path, used to exhibit the hard-coded fail-open behaviour. -/
def c6Req : Req := ⟨"/api/adventures", "Mozilla/5.0", some "user1", some "10.0.0.9"⟩

/-! ### Registry lemmas -/

theorem lookupA_insertA_self {α : Type} (l : List (String × α)) (k : String) (v : α) :
    lookupA (insertA l k v) k = some v := by
  induction l with
  | nil => simp [insertA, lookupA]
  | cons p rest ih =>
    by_cases h : p.1 = k
    · simp [insertA, lookupA, h]
    · simp [insertA, lookupA, h, ih]

theorem lookupA_insertA_ne {α : Type} (l : List (String × α)) (k k2 : String) (v : α)
    (h : k2 ≠ k) : lookupA (insertA l k v) k2 = lookupA l k2 := by
  induction l with
  | nil => simp [insertA, lookupA, Ne.symm h]
  | cons p rest ih =>
    by_cases hp : p.1 = k
    · subst hp
      simp [insertA, lookupA, Ne.symm h]
    · simp [insertA, lookupA, hp, ih]

theorem lookupA_map {α β : Type} (f : α → β) (l : List (String × α)) (k : String) :
    lookupA (l.map (fun p => (p.1, f p.2))) k = (lookupA l k).map f := by
  induction l with
  | nil => simp [lookupA]
  | cons p rest ih =>
    by_cases h : p.1 = k
    · simp [lookupA, h]
    · simp [lookupA, h, ih]

/-! ### Retry pipeline lemmas -/

theorem runPRetry_fail_then_ok (fs : List TransportResult) (retries : Nat) (r : AxiosResponse)
    (hlen : fs.length ≤ retries)
    (hfail : ∀ tr ∈ fs, isErr (attemptOnce tr) = true)
    (hok : r.status < 500) :
    runPRetry retries (fs ++ [.resp r]) = (.ok r, fs.length + 1, []) := by
  have h5 : ¬ (500 ≤ r.status) := Nat.not_le.mpr hok
  induction fs generalizing retries with
  | nil => simp [runPRetry, attemptOnce, h5]
  | cons tr fs ih =>
    cases retries with
    | zero => simp at hlen
    | succ n =>
      have htr : isErr (attemptOnce tr) = true := hfail tr (by simp)
      cases he : attemptOnce tr with
      | ok _ => rw [he] at htr; simp [isErr] at htr
      | error e =>
        have hrec := ih n (Nat.le_of_succ_le_succ hlen)
          (fun t ht => hfail t (by simp [ht]))
        simp [runPRetry, he, hrec]

theorem parseOrigin_ne_empty {url origin : String} (h : parseOrigin url = some origin) :
    origin ≠ "" := by
  unfold parseOrigin at h
  cases hs : splitFirst "://".toList url.toList with
  | none => rw [hs] at h; simp at h
  | some p =>
    rw [hs] at h
    simp only at h
    split at h
    · have horigin := Option.some.inj h
      intro hempty
      rw [hempty] at horigin
      have hdata := congrArg String.data horigin
      simp at hdata
    · simp at h

theorem parseOrigin_empty_str : parseOrigin "" = none := rfl

/-! ### Claim theorems for the HTTP client -/

/-- C10: calling httpRequest with neither a serviceName nor a url fails
immediately with the requires-url error, making no transport invocation and
leaving the breaker registries untouched. -/
theorem c10_missing_url_guard (m : String) (st : ClientState) (script : List TransportResult) :
    httpRequest ⟨none, none, m⟩ st script = (.error .requiresUrl, st, 0) := by
  simp [httpRequest, strFalsy]

/-- C4: with no serviceName and a url that does not parse as absolute,
httpRequest performs a direct retrying call with the same retry count and no
breaker: the result is exactly that of the bare retry pipeline and the client
state (both breaker registries) is returned unchanged. -/
theorem c4_non_absolute_fallback (m url : String) (st : ClientState)
    (script : List TransportResult)
    (hurlne : url ≠ "") (hrel : parseOrigin url = none) :
    httpRequest ⟨none, some url, m⟩ st script =
      ((runPRetry DEFAULT_RETRIES script).1, st, (runPRetry DEFAULT_RETRIES script).2.1) := by
  simp [httpRequest, strFalsy, hurlne, getOriginFromUrl, hrel]

/-- C4 witness: a relative url falls back to the direct retrying call. -/
theorem c4_witness :
    httpRequest ⟨none, some "/relative/path", "get"⟩ emptyClientState [.resp ⟨200, .empty⟩] =
      ((runPRetry DEFAULT_RETRIES [.resp ⟨200, .empty⟩]).1, emptyClientState,
        (runPRetry DEFAULT_RETRIES [.resp ⟨200, .empty⟩]).2.1) :=
  c4_non_absolute_fallback "get" "/relative/path" emptyClientState [.resp ⟨200, .empty⟩]
    (by decide) (by decide)

/-- C2: a response with status below 500 is returned as a normal
non-exceptional result after exactly one transport invocation: no retry
happens and no error is thrown on a non-2xx status. -/
theorem c2_no_retry_below_500 (m url origin : String) (r : AxiosResponse)
    (rest : List TransportResult) (st : ClientState)
    (hurl : parseOrigin url = some origin)
    (hok : r.status < 500)
    (hfresh : lookupA st.hostBreakers origin = none) :
    (httpRequest ⟨none, some url, m⟩ st (.resp r :: rest)).1 = .ok r ∧
    (httpRequest ⟨none, some url, m⟩ st (.resp r :: rest)).2.2 = 1 := by
  have honene : origin ≠ "" := parseOrigin_ne_empty hurl
  have hurlne : url ≠ "" := by
    intro hh; rw [hh, parseOrigin_empty_str] at hurl; exact Option.noConfusion hurl
  have h5 : ¬ (500 ≤ r.status) := Nat.not_le.mpr hok
  simp [httpRequest, strFalsy, hurlne, getOriginFromUrl, hurl, honene,
    getBreakerForHost, hfresh, newBreaker, fire, runPRetry, attemptOnce, h5]

/-- C2 witness: a 404 is returned as-is with one transport invocation. -/
theorem c2_witness :
    (httpRequest ⟨none, some "https://svc.example/api", "get"⟩ emptyClientState
      [.resp ⟨404, .empty⟩, .resp ⟨200, .okTrue⟩]).1 = .ok ⟨404, .empty⟩ ∧
    (httpRequest ⟨none, some "https://svc.example/api", "get"⟩ emptyClientState
      [.resp ⟨404, .empty⟩, .resp ⟨200, .okTrue⟩]).2.2 = 1 :=
  c2_no_retry_below_500 "get" "https://svc.example/api" "https://svc.example"
    ⟨404, .empty⟩ [.resp ⟨200, .okTrue⟩] emptyClientState (by decide) (by decide) (by decide)

/-- C1: when every leading transport attempt fails retryably (5xx or network
error) and the next attempt succeeds, httpRequest resolves with the successful
response, invokes the transport once per attempt (failures + 1 invocations),
and the breaker for the origin ends closed. -/
theorem c1_retry_then_succeed (url origin : String) (fs : List TransportResult)
    (r : AxiosResponse) (st : ClientState)
    (hurl : parseOrigin url = some origin)
    (hlen : fs.length ≤ DEFAULT_RETRIES)
    (hfail : ∀ tr ∈ fs, isErr (attemptOnce tr) = true)
    (hok : r.status < 500)
    (hfresh : lookupA st.hostBreakers origin = none) :
    (httpRequest ⟨none, some url, "get"⟩ st (fs ++ [.resp r])).1 = .ok r ∧
    (httpRequest ⟨none, some url, "get"⟩ st (fs ++ [.resp r])).2.2 = fs.length + 1 ∧
    (lookupA (httpRequest ⟨none, some url, "get"⟩ st (fs ++ [.resp r])).2.1.hostBreakers
        origin).map breakerStateLabel = some "closed" := by
  have honene : origin ≠ "" := parseOrigin_ne_empty hurl
  have hurlne : url ≠ "" := by
    intro hh; rw [hh, parseOrigin_empty_str] at hurl; exact Option.noConfusion hurl
  have hrun := runPRetry_fail_then_ok fs DEFAULT_RETRIES r hlen hfail hok
  simp [httpRequest, strFalsy, hurlne, getOriginFromUrl, hurl, honene,
    getBreakerForHost, hfresh, newBreaker, fire, hrun, recordSuccess,
    lookupA_insertA_self, breakerStateLabel]

theorem getBreakerForHost_idem (st : ClientState) (o : String) :
    getBreakerForHost (getBreakerForHost st o).2 o = getBreakerForHost st o := by
  unfold getBreakerForHost
  cases h : lookupA st.hostBreakers o with
  | some b => simp [h]
  | none => simp [h, lookupA_insertA_self]

theorem getBreakerForService_idem (st : ClientState) (s : String) :
    getBreakerForService (getBreakerForService st s).2 s = getBreakerForService st s := by
  unfold getBreakerForService
  cases h : lookupA st.serviceBreakers s with
  | some b => simp [h]
  | none => simp [h, lookupA_insertA_self]

theorem httpRequest_url_isolated (st : ClientState) (url origin o2 m : String)
    (script : List TransportResult)
    (hurl : parseOrigin url = some origin) (hne : o2 ≠ origin) :
    lookupA (httpRequest ⟨none, some url, m⟩ st script).2.1.hostBreakers o2 =
      lookupA st.hostBreakers o2 ∧
    (httpRequest ⟨none, some url, m⟩ st script).2.1.serviceBreakers = st.serviceBreakers := by
  have honene : origin ≠ "" := parseOrigin_ne_empty hurl
  have hurlne : url ≠ "" := by
    intro hh; rw [hh, parseOrigin_empty_str] at hurl; exact Option.noConfusion hurl
  unfold httpRequest
  simp only [strFalsy, getOriginFromUrl, hurl]
  unfold getBreakerForHost
  cases h : lookupA st.hostBreakers origin with
  | some b =>
    rcases hf : (fire b DEFAULT_RETRIES script).1 with fe | r
    · cases fe <;>
        simp [hurl, hurlne, honene, h, hf, lookupA_insertA_ne _ _ _ _ hne]
    · simp [hurl, hurlne, honene, h, hf, lookupA_insertA_ne _ _ _ _ hne]
  | none =>
    rcases hf : (fire (newBreaker DEFAULT_THRESHOLD_PCT) DEFAULT_RETRIES script).1 with fe | r
    · cases fe <;>
        simp [hurl, hurlne, honene, h, hf, lookupA_insertA_ne _ _ _ _ hne]
    · simp [hurl, hurlne, honene, h, hf, lookupA_insertA_ne _ _ _ _ hne]

theorem httpRequest_service_isolated (st : ClientState) (svc s2 m : String)
    (script : List TransportResult)
    (hsvc : svc ≠ "") (hne : s2 ≠ svc) :
    lookupA (httpRequest ⟨some svc, none, m⟩ st script).2.1.serviceBreakers s2 =
      lookupA st.serviceBreakers s2 ∧
    (httpRequest ⟨some svc, none, m⟩ st script).2.1.hostBreakers = st.hostBreakers := by
  unfold httpRequest proxyRequest
  simp only [strFalsy, Option.getD]
  unfold getBreakerForService
  cases h : lookupA st.serviceBreakers svc with
  | some b =>
    rcases hf : (fire b DEFAULT_RETRIES script).1 with fe | r
    · cases fe <;> simp [hsvc, h, hf, lookupA_insertA_ne _ _ _ _ hne]
    · simp [hsvc, h, hf, lookupA_insertA_ne _ _ _ _ hne]
  | none =>
    rcases hf : (fire (newBreaker DEFAULT_THRESHOLD_PCT) DEFAULT_RETRIES script).1 with fe | r
    · cases fe <;> simp [hsvc, h, hf, lookupA_insertA_ne _ _ _ _ hne]
    · simp [hsvc, h, hf, lookupA_insertA_ne _ _ _ _ hne]

/-- C3: the registries are memoizing (a second get for the same origin, or
the same service name, returns the stored breaker and changes nothing) and
isolating (a request against one origin never changes the registered breaker
of a different origin nor the service registry, and symmetrically for the
service-name mode). -/
theorem c3_target_identity_isolation :
    (∀ st o, getBreakerForHost (getBreakerForHost st o).2 o = getBreakerForHost st o) ∧
    (∀ st s, getBreakerForService (getBreakerForService st s).2 s = getBreakerForService st s) ∧
    (∀ st url origin o2 m script, parseOrigin url = some origin → o2 ≠ origin →
      lookupA (httpRequest ⟨none, some url, m⟩ st script).2.1.hostBreakers o2 =
        lookupA st.hostBreakers o2 ∧
      (httpRequest ⟨none, some url, m⟩ st script).2.1.serviceBreakers = st.serviceBreakers) ∧
    (∀ st svc s2 m script, svc ≠ "" → s2 ≠ svc →
      lookupA (httpRequest ⟨some svc, none, m⟩ st script).2.1.serviceBreakers s2 =
        lookupA st.serviceBreakers s2 ∧
      (httpRequest ⟨some svc, none, m⟩ st script).2.1.hostBreakers = st.hostBreakers) :=
  ⟨getBreakerForHost_idem, getBreakerForService_idem,
    fun st url origin o2 m script hurl hne =>
      httpRequest_url_isolated st url origin o2 m script hurl hne,
    fun st svc s2 m script hsvc hne =>
      httpRequest_service_isolated st svc s2 m script hsvc hne⟩

/-- C3 witness: concrete instantiation of every conjunct — repeated gets for
one origin and one service are stable, and a failing request against origin
a.example leaves the breaker entry for b.example and the service registry
untouched (and symmetrically for services). -/
theorem c3_witness :
    (getBreakerForHost (getBreakerForHost emptyClientState "https://a.example").2
        "https://a.example" = getBreakerForHost emptyClientState "https://a.example") ∧
    (getBreakerForService (getBreakerForService emptyClientState "svcA").2 "svcA" =
      getBreakerForService emptyClientState "svcA") ∧
    (lookupA (httpRequest ⟨none, some "https://a.example/x", "get"⟩
        ⟨[("https://b.example", newBreaker 50)], [("svcB", newBreaker 50)]⟩
        [.resp ⟨500, .empty⟩, .resp ⟨500, .empty⟩, .resp ⟨500, .empty⟩]).2.1.hostBreakers
        "https://b.example" = some (newBreaker 50) ∧
      (httpRequest ⟨none, some "https://a.example/x", "get"⟩
        ⟨[("https://b.example", newBreaker 50)], [("svcB", newBreaker 50)]⟩
        [.resp ⟨500, .empty⟩, .resp ⟨500, .empty⟩, .resp ⟨500, .empty⟩]).2.1.serviceBreakers =
        [("svcB", newBreaker 50)]) ∧
    (lookupA (httpRequest ⟨some "svcA", none, "get"⟩
        ⟨[("https://b.example", newBreaker 50)], [("svcB", newBreaker 50)]⟩
        [.resp ⟨500, .empty⟩, .resp ⟨500, .empty⟩, .resp ⟨500, .empty⟩]).2.1.serviceBreakers
        "svcB" = some (newBreaker 50) ∧
      (httpRequest ⟨some "svcA", none, "get"⟩
        ⟨[("https://b.example", newBreaker 50)], [("svcB", newBreaker 50)]⟩
        [.resp ⟨500, .empty⟩, .resp ⟨500, .empty⟩, .resp ⟨500, .empty⟩]).2.1.hostBreakers =
        [("https://b.example", newBreaker 50)]) := by
  refine ⟨c3_target_identity_isolation.1 emptyClientState "https://a.example",
    c3_target_identity_isolation.2.1 emptyClientState "svcA", ?_, ?_⟩
  · have h := c3_target_identity_isolation.2.2.1
      ⟨[("https://b.example", newBreaker 50)], [("svcB", newBreaker 50)]⟩
      "https://a.example/x" "https://a.example" "https://b.example" "get"
      [.resp ⟨500, .empty⟩, .resp ⟨500, .empty⟩, .resp ⟨500, .empty⟩]
      (by decide) (by decide)
    exact ⟨h.1.trans (by decide), h.2⟩
  · have h := c3_target_identity_isolation.2.2.2
      ⟨[("https://b.example", newBreaker 50)], [("svcB", newBreaker 50)]⟩
      "svcA" "svcB" "get"
      [.resp ⟨500, .empty⟩, .resp ⟨500, .empty⟩, .resp ⟨500, .empty⟩]
      (by decide) (by decide)
    exact ⟨h.1.trans (by decide), h.2⟩

/-- C9 counterexample: after a service-name-addressed call has created a
breaker for svc1, the observability snapshot does not contain svc1 — only the
per-origin map is reported, so the claim fails for the service addressing
mode. -/
theorem c9_counterexample :
    (lookupA c9ServiceState.serviceBreakers "svc1").isSome = true ∧
    lookupA (getBreakerStates c9ServiceState) "svc1" = none := by decide

/-- C9 amended: the observability accessor maps every origin for which a
per-origin (URL-mode) breaker exists to its current state, one of open,
halfOpen or closed; service-name-mode breakers are not included. -/
theorem c9_amended_origin_snapshot (st : ClientState) (o : String) (b : Breaker)
    (h : lookupA st.hostBreakers o = some b) :
    lookupA (getBreakerStates st) o = some (breakerStateLabel b) ∧
    (breakerStateLabel b = "open" ∨ breakerStateLabel b = "halfOpen" ∨
      breakerStateLabel b = "closed") := by
  constructor
  · rw [getBreakerStates, lookupA_map, h]; rfl
  · unfold breakerStateLabel
    by_cases h1 : b.opened <;> by_cases h2 : b.halfOpen <;> simp [h1, h2]

/-- C9 amended witness: the snapshot of a one-origin registry reports that
origin as closed. -/
theorem c9_witness :
    lookupA (getBreakerStates ⟨[("https://a.example", newBreaker 50)], []⟩)
      "https://a.example" = some (breakerStateLabel (newBreaker 50)) ∧
    (breakerStateLabel (newBreaker 50) = "open" ∨
      breakerStateLabel (newBreaker 50) = "halfOpen" ∨
      breakerStateLabel (newBreaker 50) = "closed") :=
  c9_amended_origin_snapshot ⟨[("https://a.example", newBreaker 50)], []⟩
    "https://a.example" (newBreaker 50) (by decide)

/-- C5: when the backend connection is down or the cache breaker is open,
get returns absent without contacting the backend, and set and del complete
without contacting the backend; and on any internal failure (backend
rejection or JSON parse error) get still returns absent — errors never
propagate to the caller. -/
theorem c5_cache_fail_as_miss :
    (∀ st call, st.isConnected = false ∨ breakerIsOpen st.breaker = true →
      cacheGet st call = (none, st, false)) ∧
    (∀ st call, st.isConnected = false ∨ breakerIsOpen st.breaker = true →
      cacheSet st call = (st, false) ∧ cacheDel st call = (st, false)) ∧
    (∀ st m, (cacheGet st (.backendErr m)).1 = none) ∧
    (∀ st raw e, jsonParse raw = .error e → (cacheGet st (.value (some raw))).1 = none) := by
  refine ⟨?_, ?_, ?_, ?_⟩
  · intro st call h
    rcases h with h | h
    · simp [cacheGet, h]
    · by_cases hc : st.isConnected
      · by_cases hcl : st.hasClient <;> simp [cacheGet, hc, hcl, h]
      · simp [cacheGet, hc]
  · intro st call h
    rcases h with h | h
    · simp [cacheSet, cacheDel, h]
    · by_cases hc : st.isConnected
      · by_cases hcl : st.hasClient <;> simp [cacheSet, cacheDel, hc, hcl, h]
      · simp [cacheSet, cacheDel, hc]
  · intro st m
    by_cases hc : st.isConnected
    · by_cases hcl : st.hasClient
      · by_cases hb : breakerIsOpen st.breaker
        · simp [cacheGet, hc, hcl, hb]
        · cases hbr : st.breaker with
          | none => simp [cacheGet, hc, hcl, hbr, breakerIsOpen]
          | some b =>
            by_cases hop : b.opened <;>
              simp [cacheGet, hc, hcl, hbr, breakerIsOpen, hop]
      · simp [cacheGet, hc, hcl]
    · simp [cacheGet, hc]
  · intro st raw e hparse
    by_cases hc : st.isConnected
    · by_cases hcl : st.hasClient
      · by_cases hb : breakerIsOpen st.breaker
        · simp [cacheGet, hc, hcl, hb]
        · cases hbr : st.breaker with
          | none => simp [cacheGet, hc, hcl, hbr, hparse, breakerIsOpen]
          | some b =>
            by_cases hop : b.opened <;>
              simp [cacheGet, hc, hcl, hbr, hparse, breakerIsOpen, hop]
      · simp [cacheGet, hc, hcl]
    · simp [cacheGet, hc]

/-- C5 witness: with the breaker forced open (and with the connection down),
get misses and set and del skip without contacting the backend; a backend
rejection and a malformed stored payload both degrade to a miss. -/
theorem c5_witness :
    cacheGet ⟨true, true, some ⟨true, false, 0, 0, 50⟩⟩ (.value (some "v")) =
      (none, ⟨true, true, some ⟨true, false, 0, 0, 50⟩⟩, false) ∧
    (cacheSet ⟨false, true, none⟩ .done = (⟨false, true, none⟩, false) ∧
      cacheDel ⟨false, true, none⟩ .done = (⟨false, true, none⟩, false)) ∧
    (cacheGet ⟨true, true, some (newBreaker 50)⟩ (.backendErr "ECONNREFUSED")).1 = none ∧
    (cacheGet ⟨true, true, some (newBreaker 50)⟩ (.value (some "!bad"))).1 = none :=
  ⟨c5_cache_fail_as_miss.1 ⟨true, true, some ⟨true, false, 0, 0, 50⟩⟩ (.value (some "v"))
      (Or.inr (by decide)),
    c5_cache_fail_as_miss.2.1 ⟨false, true, none⟩ .done (Or.inl (by decide)),
    c5_cache_fail_as_miss.2.2.1 ⟨true, true, some (newBreaker 50)⟩ "ECONNREFUSED",
    c5_cache_fail_as_miss.2.2.2 ⟨true, true, some (newBreaker 50)⟩ "!bad" "SyntaxError"
      (by decide)⟩

/-! ### Window limiter lemmas -/

theorem consumeAllAllowed_run (points durationSec now : Nat) (key : String) :
    ∀ (k c : Nat), 1 ≤ c → c + k ≤ points → 1 ≤ durationSec →
    consumeAllAllowed points durationSec now key k
        [(key, ⟨c, now + durationSec * 1000⟩)] =
      (true, [(key, ⟨c + k, now + durationSec * 1000⟩)]) := by
  intro k
  induction k with
  | zero => intro c hc hle hD; simp [consumeAllAllowed]
  | succ n ih =>
    intro c hc hle hD
    have hnexp : ¬ (now + durationSec * 1000 ≤ now) := by omega
    have hcp : c + 1 ≤ points := by omega
    have hres := ih (c + 1) (by omega) (by omega) hD
    have heq : c + 1 + n = c + (n + 1) := by omega
    rw [heq] at hres
    simp [consumeAllAllowed, consumeKey, lookupA, consumePoint, insertA, hnexp, hcp, hres]

theorem consumePoint_limited_pos (points durationSec now : Nat) (w0 : Option WindowState)
    (ms : Nat) (w : WindowState) (hD : 1 ≤ durationSec)
    (h : consumePoint points durationSec now w0 = .limited ms w) : 1 ≤ ms := by
  unfold consumePoint at h
  cases w0 with
  | none =>
    simp only at h
    split at h
    · exact ConsumeOutcome.noConfusion h
    · injection h with h1 h2; omega
  | some w2 =>
    simp only at h
    split at h
    · split at h
      · exact ConsumeOutcome.noConfusion h
      · injection h with h1 h2; omega
    · split at h
      · exact ConsumeOutcome.noConfusion h
      · injection h with h1 h2; omega

theorem consumeKey_limited_pos (points durationSec now : Nat) (store : Store) (key : String)
    (ms : Nat) (w : WindowState) (st2 : Store) (hD : 1 ≤ durationSec)
    (h : consumeKey points durationSec now store key = (.limited ms w, st2)) : 1 ≤ ms := by
  unfold consumeKey at h
  cases hcp : consumePoint points durationSec now (lookupA store key) with
  | allowed w1 => rw [hcp] at h; simp at h
  | limited ms1 w1 =>
    rw [hcp] at h
    have h1 : ConsumeOutcome.limited ms1 w1 = .limited ms w := congrArg Prod.fst h
    injection h1 with hms hw
    exact hms ▸ consumePoint_limited_pos points durationSec now (lookupA store key) ms1 w1 hD hcp

theorem ceilDiv1000_pos (ms : Nat) (h : 1 ≤ ms) : 1 ≤ ceilDiv1000 ms := by
  unfold ceilDiv1000
  exact (Nat.one_le_div_iff (by omega)).mpr (by omega)

/-! ### Claim theorems for the rate limiter -/

/-- C8: first, window enforcement — from a fresh store, N consumes for the
same key within a window of N points all succeed and the (N+1)th is rejected
with the full window duration as msBeforeNext; second, every 429 rejection of
the rateBot middleware carries the same positive retry-after value in the
Retry-After header and in the body, and the only other rejection the
middleware produces is the 403 bot rejection without retry fields — so the
quota rejection is distinguishable from all other error conditions. -/
theorem c8_quota_rejection_retry_after :
    (∀ N D now key, 1 ≤ N → 1 ≤ D →
      (consumeAllAllowed N D now key N []).1 = true ∧
      (consumeKey N D now (consumeAllAllowed N D now key N []).2 key).1 =
        .limited (D * 1000) ⟨N + 1, now + D * 1000⟩) ∧
    (∀ env redisUp req now s status h b m,
      (rateBot env redisUp req now s).decision = .reject status h b m →
      (status = 429 ∧ ∃ r, h = some r ∧ b = some r ∧ 1 ≤ r) ∨
      (status = 403 ∧ h = none ∧ b = none ∧ m = "Bots are not allowed")) := by
  constructor
  · intro N D now key hN hD
    obtain ⟨n, rfl⟩ : ∃ n, N = n + 1 := ⟨N - 1, by omega⟩
    have hrun := consumeAllAllowed_run (n + 1) D now key n 1 (by omega) (by omega) hD
    have hone : (1 : Nat) + n = n + 1 := by omega
    rw [hone] at hrun
    have hnexp : ¬ (now + D * 1000 ≤ now) := by omega
    have hstep : consumeAllAllowed (n + 1) D now key (n + 1) [] =
        (true, [(key, ⟨n + 1, now + D * 1000⟩)]) := by
      simp [consumeAllAllowed, consumeKey, lookupA, consumePoint, insertA, hrun]
    refine ⟨by rw [hstep], ?_⟩
    rw [hstep]
    have hover : ¬ (n + 1 + 1 ≤ n + 1) := by omega
    simp [consumeKey, lookupA, consumePoint, hnexp, hover]
  · intro env redisUp req now s status h b m hdec
    unfold rateBot at hdec
    by_cases he : env = "production"
    case neg => simp [he] at hdec
    subst he
    by_cases ha : strStartsWith req.path "/api/auth"
    case pos => simp [ha] at hdec
    by_cases hbt : isBotUserAgent req.userAgent
    case pos =>
      simp [ha, hbt] at hdec
      right
      exact ⟨hdec.1.symm, hdec.2.1.symm, hdec.2.2.1.symm, hdec.2.2.2.symm⟩
    by_cases hr : redisUp
    case neg => simp [ha, hbt, hr] at hdec
    simp only [ne_eq, not_true_eq_false, if_false, Bool.false_eq_true, ha, hbt, hr,
      not_false_eq_true, if_true, if_neg, Bool.not_true] at hdec
    rcases hmain : consumeKey 100 900 now s.main (getKey req) with ⟨o1, main1⟩
    cases o1 with
    | limited ms w =>
      rw [hmain] at hdec
      simp [ha, hbt, hr] at hdec
      left
      refine ⟨hdec.1.symm, ceilDiv1000 ms, hdec.2.1.symm, hdec.2.2.1.symm, ?_⟩
      exact ceilDiv1000_pos ms
        (consumeKey_limited_pos 100 900 now s.main (getKey req) ms w main1 (by omega) hmain)
    | allowed w =>
      rw [hmain] at hdec
      rcases hburst : consumeKey 10 1 now s.burst (getKey req) with ⟨o2, burst1⟩
      cases o2 with
      | limited ms2 w2 =>
        rw [hburst] at hdec
        simp [ha, hbt, hr] at hdec
        left
        refine ⟨hdec.1.symm, ceilDiv1000 ms2, hdec.2.1.symm, hdec.2.2.1.symm, ?_⟩
        exact ceilDiv1000_pos ms2
          (consumeKey_limited_pos 10 1 now s.burst (getKey req) ms2 w2 burst1 (by omega) hburst)
      | allowed w2 =>
        rw [hburst] at hdec
        simp [ha, hbt, hr] at hdec

/-- C8 witness: with a window of 3 points per second, three consumes succeed
and the fourth is rejected with the full window as msBeforeNext; and a
concrete rejected request carries retry-after 5 in header and body with
status 429. -/
theorem c8_witness :
    ((consumeAllAllowed 3 1 0 "u" 3 []).1 = true ∧
      (consumeKey 3 1 0 (consumeAllAllowed 3 1 0 "u" 3 []).2 "u").1 =
        .limited (1 * 1000) ⟨3 + 1, 0 + 1 * 1000⟩) ∧
    (((429 : Nat) = 429 ∧ ∃ r, (some 5 : Option Nat) = some r ∧
        (some 5 : Option Nat) = some r ∧ 1 ≤ r) ∨
      ((429 : Nat) = 403 ∧ (some 5 : Option Nat) = none ∧ (some 5 : Option Nat) = none ∧
        "Too many requests, please try again later." = "Bots are not allowed")) :=
  ⟨c8_quota_rejection_retry_after.1 3 1 0 "u" (by decide) (by decide),
    c8_quota_rejection_retry_after.2 "production" true
      ⟨"/api/x", "Mozilla/5.0", some "u", none⟩ 0 ⟨[("u", ⟨100, 5000⟩)], []⟩
      429 (some 5) (some 5) "Too many requests, please try again later." (by decide)⟩

/-- C7: bot-like User-Agents on non-exempt production paths are rejected with
403 before any limiter consume happens (zero consume attempts, stores
untouched, for both states of the Redis connection); auth-path requests and
non-production requests bypass the limiter entirely, also with zero
consumes. -/
theorem c7_bot_rejected_before_quota :
    (∀ redisUp req now s, strStartsWith req.path "/api/auth" = false →
      isBotUserAgent req.userAgent = true →
      rateBot "production" redisUp req now s =
        ⟨.reject 403 none none "Bots are not allowed", s, 0, false⟩) ∧
    (∀ redisUp req now s, strStartsWith req.path "/api/auth" = true →
      rateBot "production" redisUp req now s = ⟨.next, s, 0, false⟩) ∧
    (∀ env redisUp req now s, env ≠ "production" →
      rateBot env redisUp req now s = ⟨.next, s, 0, false⟩) := by
  refine ⟨?_, ?_, ?_⟩
  · intro redisUp req now s ha hbt
    simp [rateBot, ha, hbt]
  · intro redisUp req now s ha
    simp [rateBot, ha]
  · intro env redisUp req now s he
    simp [rateBot, he]

/-- C7 witness: a bot on a normal path is rejected with 403 and no consume
even with Redis down; an auth path and a non-production environment bypass
with no consume. -/
theorem c7_witness :
    rateBot "production" false ⟨"/api/users/1", "GoogleBot/2.1", some "u", none⟩ 5 ⟨[], []⟩ =
      ⟨.reject 403 none none "Bots are not allowed", ⟨[], []⟩, 0, false⟩ ∧
    rateBot "production" true ⟨"/api/auth/login", "GoogleBot/2.1", some "u", none⟩ 5 ⟨[], []⟩ =
      ⟨.next, ⟨[], []⟩, 0, false⟩ ∧
    rateBot "development" true ⟨"/api/users/1", "curl/8.0", none, none⟩ 5 ⟨[], []⟩ =
      ⟨.next, ⟨[], []⟩, 0, false⟩ :=
  ⟨c7_bot_rejected_before_quota.1 false ⟨"/api/users/1", "GoogleBot/2.1", some "u", none⟩ 5
      ⟨[], []⟩ (by decide) (by decide),
    c7_bot_rejected_before_quota.2.1 true ⟨"/api/auth/login", "GoogleBot/2.1", some "u", none⟩ 5
      ⟨[], []⟩ (by decide),
    c7_bot_rejected_before_quota.2.2 "development" true ⟨"/api/users/1", "curl/8.0", none, none⟩
      5 ⟨[], []⟩ (by decide)⟩

/-- C6 counterexample: with Redis down, a production request on a non-exempt
path with a normal User-Agent is passed through with a warning — it is not
rejected with 503.  The middleware takes no degradation-policy input at all
(compare the signature of rateBot with the source), so no configuration can
produce the fail-closed rejection the claim describes: fail-closed exists
only as commented-out code. -/
theorem c6_counterexample :
    (rateBot "production" false c6Req 0 ⟨[], []⟩).decision = .next ∧
    (rateBot "production" false c6Req 0 ⟨[], []⟩).warnedRedisDown = true ∧
    (rateBot "production" false c6Req 0 ⟨[], []⟩).decision ≠
      .reject 503 none none "Rate limiter unavailable" := by decide

/-- C6 amended: when the Redis connection has failed, the middleware logs a
warning and passes the request through (fail-open) without consuming any
quota; this behaviour is hard-coded, not configurable. -/
theorem c6_fail_open_on_redis_down (req : Req) (now : Nat) (s : RateLimitStores)
    (hauth : strStartsWith req.path "/api/auth" = false)
    (hbot : isBotUserAgent req.userAgent = false) :
    rateBot "production" false req now s = ⟨.next, s, 0, true⟩ := by
  simp [rateBot, hauth, hbot]

/-- C6 amended witness: a concrete production request with Redis down is
passed through with the warning flag set. -/
theorem c6_witness :
    rateBot "production" false ⟨"/api/tasks", "curl/8.0", none, some "10.1.1.1"⟩ 7 ⟨[], []⟩ =
      ⟨.next, ⟨[], []⟩, 0, true⟩ :=
  c6_fail_open_on_redis_down ⟨"/api/tasks", "curl/8.0", none, some "10.1.1.1"⟩ 7 ⟨[], []⟩
    (by decide) (by decide)

/-- C1 witness: the end-to-end scenario 500, 500, 200 with body ok-true
resolves with the 200 response after three transport invocations and leaves
the breaker for https svc.example closed. -/
theorem c1_witness :
    (httpRequest ⟨none, some "https://svc.example/api", "get"⟩ emptyClientState
      [.resp ⟨500, .empty⟩, .resp ⟨500, .empty⟩, .resp ⟨200, .okTrue⟩]).1 = .ok ⟨200, .okTrue⟩ ∧
    (httpRequest ⟨none, some "https://svc.example/api", "get"⟩ emptyClientState
      [.resp ⟨500, .empty⟩, .resp ⟨500, .empty⟩, .resp ⟨200, .okTrue⟩]).2.2 = 3 ∧
    (lookupA (httpRequest ⟨none, some "https://svc.example/api", "get"⟩ emptyClientState
      [.resp ⟨500, .empty⟩, .resp ⟨500, .empty⟩, .resp ⟨200, .okTrue⟩]).2.1.hostBreakers
        "https://svc.example").map breakerStateLabel = some "closed" :=
  c1_retry_then_succeed "https://svc.example/api" "https://svc.example"
    [.resp ⟨500, .empty⟩, .resp ⟨500, .empty⟩] ⟨200, .okTrue⟩ emptyClientState
    (by decide) (by decide) (by decide) (by decide) (by decide)

end DeepiriCore
